import Mathlib

/-!
Shallow embedding of the Zogwine/metadata reconciliation engine
(package `scraper`: `SelectBestItem`, `SelectScraperResult`,
`UpdateWithSelectionResult`, `NewTVSScraper`/`Scan`/`processItemScan`/
`addTVS`/`updateTVS`/`updateTVSSeasons`/`updateTVSEpisodes`/
`updateTVSEpisode`, and the season/episode filename extraction), together
with proofs of the spec's claims about them.

External collaborators (the persisted store, the metadata providers, the
filesystem, the fuzzy scorer) are modelled as explicit environments:
every store/provider call is recorded as an event in a trace, and the
outcome of each call is an arbitrary function supplied by the
environment, so the theorems quantify over every possible behaviour of
the collaborators.
-/

namespace Zog

/-- Outcome of a Go function call: a normal value, a returned `error`,
or a runtime panic (used to model out-of-range slice indexing). -/
inductive GoVal (α : Type) where
  | ok (a : α)
  | err (e : String)
  | panicked (msg : String)
deriving DecidableEq, Repr

/-- Coerce a Go `(value, error)` pair, modelled as `Except`, into `GoVal`. -/
def goValOfExcept {α : Type} : Except String α → GoVal α
  | .ok a => .ok a
  | .error e => .err e

/-- Go slice indexing `xs[i]` with an `int` index: `none` models the
out-of-range panic (negative index or index ≥ length). -/
def goIndex {α : Type} (xs : List α) (i : Int) : Option α :=
  if i < 0 then none else xs.get? i.toNat

/-- First index of `x` in `xs`, if present. -/
def firstIndexOf (x : String) : List String → Option Nat
  | [] => none
  | y :: ys => if y = x then some 0 else (firstIndexOf x ys).map (· + 1)

/-- Modelled from the spec: `util.Index` (repository package
`internal/util`, not under `src/`) returns the first index of an element
in a slice, `-1` when absent; callers test the result with `> -1` and
§4.1 requires the first (stable) position. -/
def utilIndex (xs : List String) (x : String) : Int :=
  match firstIndexOf x xs with
  | some n => (n : Int)
  | none => -1

/-- `util.Contains` for `[]int64`: membership test. -/
def utilContains (xs : List Int) (x : Int) : Bool := xs.contains x

/-- One search result produced by a provider
(`common.SearchData`; the fields the engine reads). -/
structure SearchData where
  Title : String
  ScraperName : String
  ScraperID : String
  ScraperData : String
  Premiered : Int
deriving DecidableEq, Repr

/-- Result of `fuzzy.ExtractOne`: the best-matching choice and its score. -/
structure MatchPair where
  Match : String
  Score : Nat
deriving DecidableEq, Repr

/-- The external dependencies of `SelectBestItem`: the fuzzy similarity
scorer (`fuzzy.ExtractOne`'s `WRatio`, 0–100) and the year of a Unix
timestamp (`time.Unix(t, 0).Year()`). Both live outside this repository,
so the theorems below hold for every instantiation. -/
structure FuzzyEnv where
  score : String → String → Nat
  yearOfUnix : Int → Int

/-- One comparison step of `fuzzy.ExtractOne`: keep the incumbent
unless the new choice scores strictly higher (so ties keep the earlier
choice). -/
def bestStep (score : String → String → Nat) (query : String)
    (best : MatchPair) (x : String) : MatchPair :=
  if score query x > best.Score then ⟨x, score query x⟩ else best

/-- Modelled from the spec: `fuzzy.ExtractOne` (third-party library)
scores every choice against the query and returns the top-scoring one,
ties broken by the first choice reaching the maximum score in input
order (§4.1); it fails on an empty choice list. The scorer itself is a
parameter. -/
def extractOne (score : String → String → Nat) (query : String) :
    List String → Option MatchPair
  | [] => none
  | c :: cs => some (cs.foldl (bestStep score query) ⟨c, score query c⟩)

/-- The year filter of `SelectBestItem`: with a positive year, only the
candidates whose premiere timestamp falls in that year; otherwise the
full set. -/
def filterByYear (fz : FuzzyEnv) (items : List SearchData) (year : Int) :
    List SearchData :=
  if year > 0 then items.filter (fun i => fz.yearOfUnix i.Premiered == year)
  else items

/-- `SelectBestItem` from the source: optional year filter, fuzzy match
of the title against the candidate titles, acceptance only above score
85, lookup of the matched title's position via `util.Index`, unchecked
slice indexing (modelled by `goIndex`, whose failure is a panic). -/
def SelectBestItem (fz : FuzzyEnv) (items : List SearchData) (title : String)
    (year : Int) : GoVal SearchData :=
  match extractOne fz.score title ((filterByYear fz items year).map (·.Title)) with
  | some m =>
      if m.Score > 85 then
        match goIndex (filterByYear fz items year)
            (utilIndex ((filterByYear fz items year).map (·.Title)) m.Match) with
        | some it => .ok it
        | none => .panicked "index out of range"
      else .err "no data"
  | none => .err "no data"

/-- Demo instantiation of the fuzzy scorer for concrete witnesses: exact
match scores 100 (the real `WRatio` also gives identical strings 100),
anything else 0. -/
def demoScore (a b : String) : Nat := if a = b then 100 else 0

/-- Modelled from the spec: the Gregorian year (UTC) containing a Unix
timestamp, standing in for Go's `time.Unix(t, 0).Year()` in concrete
witnesses. -/
def yearOfUnixUTC (t : Int) : Int :=
  let z : Int := t.fdiv 86400 + 719468
  let era : Int := z.fdiv 146097
  let doe : Nat := (z - era * 146097).toNat
  let yoe : Nat := (doe - doe / 1460 + doe / 36524 - doe / 146096) / 365
  let doy : Nat := doe - (365 * yoe + yoe / 4 - yoe / 100)
  let mp : Nat := (5 * doy + 2) / 153
  let m : Nat := if mp < 10 then mp + 3 else mp - 9
  let y : Int := (yoe : Int) + era * 400
  if m ≤ 2 then y + 1 else y

/-- Demo fuzzy environment used only to instantiate hypotheses of the
claim theorems at concrete inputs. -/
def demoFz : FuzzyEnv := ⟨demoScore, yearOfUnixUTC⟩

/-! ## Filename season/episode extraction

`NewTVSScraper` compiles `RegexSeason = (?i)(?:s)(\d+)(?:e)` and
`RegexEpisode = (?i)(?:s\d+e)(\d+)`; `updateTVSEpisode` applies
`FindStringSubmatch` (leftmost match) to the base filename and requires
both captured groups to be present and non-empty. `(?i)` is modelled as
ASCII case-insensitivity on the literals `s` and `e`; since every
character consumed by `\d+` is a digit and the literal after it is not,
the regex backtracking is deterministic and the matchers below compute
exactly the leftmost match of each pattern. -/

/-- Case-insensitive literal `s` of the patterns. -/
def isSChar (c : Char) : Bool := c = 's' || c = 'S'

/-- Case-insensitive literal `e` of the patterns. -/
def isEChar (c : Char) : Bool := c = 'e' || c = 'E'

/-- Match `RegexSeason` anchored at the head of the text: `s`, one or
more digits (the captured group), then `e`. -/
def matchSeasonAt : List Char → Option (List Char)
  | [] => none
  | c :: rest =>
      if isSChar c then
        match rest.dropWhile Char.isDigit with
        | e :: _ =>
            if (rest.takeWhile Char.isDigit).isEmpty then none
            else if isEChar e then some (rest.takeWhile Char.isDigit) else none
        | [] => none
      else none

/-- Match `RegexEpisode` anchored at the head of the text: `s`, digits,
`e`, then one or more digits (the captured group). -/
def matchEpisodeAt : List Char → Option (List Char)
  | [] => none
  | c :: rest =>
      if isSChar c then
        match rest.dropWhile Char.isDigit with
        | e :: rest2 =>
            if (rest.takeWhile Char.isDigit).isEmpty then none
            else if isEChar e then
              if (rest2.takeWhile Char.isDigit).isEmpty then none
              else some (rest2.takeWhile Char.isDigit)
            else none
        | [] => none
      else none

/-- Leftmost-match search: try the anchored matcher at every suffix,
earliest start position first (Go regexp `FindStringSubmatch`). -/
def scanFirst {α : Type} (f : List Char → Option α) : List Char → Option α
  | [] => none
  | c :: rest =>
      match f (c :: rest) with
      | some r => some r
      | none => scanFirst f rest

/-- `strconv.Atoi` on a non-empty digit string (the only shape the
captured groups can take; the ignored error case does not arise). -/
def digitsToNat (ds : List Char) : Nat :=
  ds.foldl (fun a c => a * 10 + (c.toNat - 48)) 0

/-- The season/episode extraction performed by `updateTVSEpisode`
(lines 442–448): both regexes applied to the filename, both captured
groups required non-empty, `strconv.Atoi` on each. -/
def extractSeasonEpisode (filename : String) : Option (Nat × Nat) :=
  match scanFirst matchSeasonAt filename.data, scanFirst matchEpisodeAt filename.data with
  | some sd, some ed =>
      if sd.isEmpty || ed.isEmpty then none
      else some (digitsToNat sd, digitsToNat ed)
  | _, _ => none

/-- The `S<number>E` season token occurs in `cs`: an `s`, a non-empty
digit run `ds`, then an `e`. -/
def SeasonTokenPresent (cs : List Char) : Prop :=
  ∃ pre s ds e post, cs = pre ++ s :: (ds ++ e :: post) ∧
    isSChar s = true ∧ isEChar e = true ∧ ds ≠ [] ∧ ∀ d ∈ ds, d.isDigit = true

/-- The `S<number>E<number>` token occurs in `cs`: an `s`, a non-empty
digit run, an `e`, then a non-empty digit run (the episode number). -/
def EpisodeTokenPresent (cs : List Char) : Prop :=
  ∃ pre s ds e es post, cs = pre ++ s :: (ds ++ e :: (es ++ post)) ∧
    isSChar s = true ∧ isEChar e = true ∧ ds ≠ [] ∧ es ≠ [] ∧
    (∀ d ∈ ds, d.isDigit = true) ∧ ∀ d ∈ es, d.isDigit = true

/-! ## Store/provider call model

Every call the engine makes to the persisted store or to a provider is
recorded as an `Ev` event (carrying the parameters the Go code passes)
in the order the code issues them; the outcome of each call is supplied
by an `Env` of arbitrary functions, one per operation. -/

/-- `database.MediaType`. -/
inductive MediaType where
  | tvs
  | movie
  | tvsEpisode
deriving DecidableEq, Repr

/-- One store/provider call, with the parameters relevant to the claims.
Both `updateShowSel` (the `UpdateShow` issued by
`UpdateWithSelectionResult`, filling the scraper binding fields and
update-mode) and `updateShowMeta` (the `UpdateShow` issued by
`updateTVS`, filling the metadata fields) go through the same
`database.UpdateShowParams` struct and the same backing query, so each
call writes every column of that struct: the fields a Go literal omits
are passed as zero values. `updateShowMeta` therefore carries the
zero-valued `sname`/`sid` that the refresh's call writes into the
binding columns. -/
inductive Ev where
  | searchTVS (provider title : String)
  | addShow (title : String) (idlib : Int)
  | updateShowSel (id : Int) (sname sid sdata : String) (mode : Int)
  | updateShowAllSeasons (id : Int) (sname sid : String) (mode : Int)
  | updateShowAllEpisodes (id : Int) (sname sid : String) (mode : Int)
  | deleteAllTagLinks (mt : MediaType) (id : Int)
  | deleteAllPersonLinks (mt : MediaType) (id : Int)
  | getMultipleResults (mt : MediaType) (id : Int)
  | deleteMultipleResults (mt : MediaType) (id : Int)
  | addMultipleResults (mt : MediaType) (id : Int) (name : String)
  | getTVS (provider sid sdata : String)
  | updateShowMeta (id : Int) (title slink sdata sname sid : String) (mode : Int)
  | listTVSTag (provider : String)
  | getTagByValue (name value : String)
  | addTag (name value : String)
  | addTagLink (mt : MediaType) (idTag mediaData : Int)
  | listTVSPerson (provider : String)
  | getPersonByName (name : String)
  | addPerson (name : String)
  | addPersonLink (mt : MediaType) (idPerson mediaData : Int)
  | listShowSeason (idshow : Int)
  | getTVSSeason (provider : String) (season : Int)
  | updateShowSeason (idshow season : Int)
  | addShowSeason (idshow season : Int) (title sname sid : String)
  | listFiles (path : String)
  | getVideoFileFromPath (idlib : Int) (path : String)
  | getShowEpisode (id : Int)
  | updateVideoFile (path : String)
  | getTVSEpisode (provider : String) (season episode : Int)
  | updateShowEpisode (id : Int) (title : String)
  | addShowEpisode (idshow season episode : Int) (title : String)
  | addVideoFile (idlib : Int) (path : String) (idEp : Int)
deriving DecidableEq, Repr

/-- Is this event a write of the show's provider binding
(`scraper_name`/`scraper_id` columns of the show row)? Every
`UpdateShow` call writes them, because both call sites share the one
`UpdateShowParams` query: the applier's call carries the selection, the
refresh's call carries zero values (clearing the binding). -/
def Ev.isShowBindingWrite : Ev → Bool
  | .updateShowSel _ _ _ _ _ => true
  | .updateShowMeta _ _ _ _ _ _ _ => true
  | _ => false

/-- Is this event a store write at all (as opposed to a read or a
provider call)? Used to state that a scenario creates no catalog data. -/
def Ev.isStoreWrite : Ev → Bool
  | .addShow _ _ => true
  | .updateShowSel _ _ _ _ _ => true
  | .updateShowAllSeasons _ _ _ _ => true
  | .updateShowAllEpisodes _ _ _ _ => true
  | .deleteAllTagLinks _ _ => true
  | .deleteAllPersonLinks _ _ => true
  | .deleteMultipleResults _ _ => true
  | .addMultipleResults _ _ _ => true
  | .updateShowMeta _ _ _ _ _ _ _ => true
  | .addTag _ _ => true
  | .addTagLink _ _ _ => true
  | .addPerson _ => true
  | .addPersonLink _ _ _ => true
  | .updateShowSeason _ _ => true
  | .addShowSeason _ _ _ _ _ => true
  | .updateVideoFile _ => true
  | .updateShowEpisode _ _ => true
  | .addShowEpisode _ _ _ _ => true
  | .addVideoFile _ _ _ => true
  | _ => false

/-- `common.TVSData` (show detail from a provider; `ScraperInfo`
flattened). -/
structure TVSData where
  Title : String
  Premiered : Int
  ScraperLink : String
  ScraperData : String
deriving DecidableEq, Repr

/-- `common.SeasonData` (season detail from a provider; the fields the
engine forwards to the store). -/
structure SeasonData where
  Title : String
  ScraperName : String
  ScraperID : String
  ScraperData : String
  ScraperLink : String
deriving DecidableEq, Repr

/-- `common.EpisodeData` (episode detail from a provider). -/
structure EpisodeData where
  Title : String
deriving DecidableEq, Repr

/-- `common.TagData`. -/
structure TagData where
  Name : String
  Value : String
  Icon : String
deriving DecidableEq, Repr

/-- `common.PersonData`. -/
structure PersonData where
  Name : String
deriving DecidableEq, Repr

/-- Row returned by `GetTagByValue`. -/
structure TagRow where
  ID : Int
  Name : String
deriving DecidableEq, Repr

/-- Row returned by `GetPersonByName`. -/
structure PersonRow where
  ID : Int
  Name : String
deriving DecidableEq, Repr

/-- `database.ListShowRow` (the fields the engine reads and writes). -/
structure ListShowRow where
  ID : Int
  Title : String
  Path : String
  ScraperName : String
  ScraperID : String
  ScraperData : String
  UpdateMode : Int
  Premiered : Int
deriving DecidableEq, Repr

/-- The zero value of `database.ListShowRow`. -/
def ListShowRow.zero : ListShowRow := ⟨0, "", "", "", "", "", 0, 0⟩

/-- Row returned by `ListShowSeason`. -/
structure SeasonRow where
  Season : Int
  UpdateMode : Int
deriving DecidableEq, Repr

/-- Row returned by `GetShowEpisode`. -/
structure EpisodeRow where
  ID : Int
  Season : Int
  Episode : Int
  UpdateMode : Int
deriving DecidableEq, Repr

/-- Row returned by `GetVideoFileFromPath`. -/
structure VideoRow where
  MediaData : Int
deriving DecidableEq, Repr

/-- Environment supplying the outcome of every store and provider call.
Provider detail calls take the provider name plus the `Configure`d
scraper id/data. `dbWrite` gives the error outcome of the store writes
that return only an error (keyed by the full event); data-returning
store operations have their own fields. -/
structure Env where
  fz : FuzzyEnv
  SearchTVS : String → String → Except String (List SearchData)
  GetTVS : String → String → String → Except String TVSData
  GetTVSSeason : String → String → String → Int → Except String SeasonData
  GetTVSEpisode : String → String → String → Int → Int → Except String EpisodeData
  ListTVSTag : String → String → String → Except String (List TagData)
  ListTVSPerson : String → String → String → Except String (List PersonData)
  AddShow : String → Int → Except String Int
  GetMultipleResults : MediaType → Int → Except String (List SearchData)
  GetTagByValue : String → String → Except String TagRow
  AddTag : TagData → Except String Int
  GetPersonByName : String → Except String PersonRow
  AddPerson : String → Except String Int
  ListShowSeason : Int → Except String (List SeasonRow)
  ListFiles : String → List String
  IsVideo : String → Bool
  GetVideoFileFromPath : Int → String → Except String VideoRow
  GetShowEpisode : Int → Except String EpisodeRow
  AddShowEpisode : Int → Int → Int → String → Except String Int
  AddVideoFile : Int → String → Int → Except String Int
  dbWrite : Ev → Option String

/-- `TVSScraper` configuration reached by `Scan`: library id and path,
the scan options, and the loaded provider names (in priority order). -/
structure Cfg where
  IDLib : Int
  LibPath : String
  AutoAdd : Bool
  AddUnknown : Bool
  ProviderNames : List String
deriving Repr

/-- `scraper.SelectionResult`. -/
structure SelectionResult where
  ScraperName : String
  ScraperID : String
  ScraperData : String
deriving DecidableEq, Repr

/-- `scraper.ScraperScanConfig`. -/
structure ScraperScanConfig where
  AutoAdd : Bool
  AddUnknown : Bool
  Enable3DScan : Bool
  MaxConcurrentScans : Int
deriving Repr

/-- `path.Base`: strip trailing slashes, then keep everything after the
last remaining slash; `/` when nothing remains (Go returns `.` only for
the empty string, which the scan never produces). -/
def pathBase (p : String) : String :=
  match p.data.reverse.dropWhile (· = '/') with
  | [] => "/"
  | cs => ⟨(cs.takeWhile (· ≠ '/')).reverse⟩

/-- The five store writes of `UpdateWithSelectionResult`, in source
order: show binding + update-mode 1, all seasons forced with bindings
cleared (name `" "`, id `"0"`), all episodes likewise, tag links
deleted, person links deleted. -/
def uwsrOps (id : Int) (sel : SelectionResult) : List Ev :=
  [Ev.updateShowSel id sel.ScraperName sel.ScraperID sel.ScraperData 1,
   Ev.updateShowAllSeasons id " " "0" 1,
   Ev.updateShowAllEpisodes id " " "0" 1,
   Ev.deleteAllTagLinks .tvs id,
   Ev.deleteAllPersonLinks .tvs id]

/-- `(*TVSScraper).UpdateWithSelectionResult`: issue the five writes in
order, stopping at — and returning — the first error. The trace lists
the writes attempted. -/
def UpdateWithSelectionResultF (env : Env) (id : Int) (sel : SelectionResult) :
    List Ev × Option String :=
  let e1 := Ev.updateShowSel id sel.ScraperName sel.ScraperID sel.ScraperData 1
  match env.dbWrite e1 with
  | some e => ([e1], some e)
  | none =>
    let e2 := Ev.updateShowAllSeasons id " " "0" 1
    match env.dbWrite e2 with
    | some e => ([e1, e2], some e)
    | none =>
      let e3 := Ev.updateShowAllEpisodes id " " "0" 1
      match env.dbWrite e3 with
      | some e => ([e1, e2, e3], some e)
      | none =>
        let e4 := Ev.deleteAllTagLinks .tvs id
        match env.dbWrite e4 with
        | some e => ([e1, e2, e3, e4], some e)
        | none =>
          let e5 := Ev.deleteAllPersonLinks .tvs id
          match env.dbWrite e5 with
          | some e => ([e1, e2, e3, e4, e5], some e)
          | none => ([e1, e2, e3, e4, e5], none)

/-- `AddMultipleResults`: delete the previous batch for the media, then
insert the new one (`json.Marshal` modelled as always succeeding). -/
def AddMultipleResultsF (env : Env) (mt : MediaType) (md : Int) (name : String) :
    List Ev × Option String :=
  let e1 := Ev.deleteMultipleResults mt md
  match env.dbWrite e1 with
  | some e => ([e1], some e)
  | none =>
    let e2 := Ev.addMultipleResults mt md name
    ([e1, e2], env.dbWrite e2)

/-- `getScraperFromMediaType`: only the TV-show media type has a
registered scraper. -/
def getScraperFromMediaType (mt : MediaType) : Except String Unit :=
  if mt = MediaType.tvs then .ok ()
  else .error "no registered scraper for this mediatype"

/-- `SelectScraperResult`: read the persisted batch (`json.Unmarshal`
modelled as the identity on the decoded batch), obtain the scraper,
index the batch with the caller's `id` (unchecked in the source — the
selection-result literal reads `searchData[id]` before any bounds
check, so an out-of-range `id` panics), apply the selection, run the
source's `len(searchData) < id` check, delete the batch, and return the
chosen candidate. -/
def SelectScraperResultF (env : Env) (mt : MediaType) (md : Int) (id : Int) :
    List Ev × GoVal SearchData :=
  let e0 := Ev.getMultipleResults mt md
  match env.GetMultipleResults mt md with
  | .error e => ([e0], .err e)
  | .ok searchData =>
    match getScraperFromMediaType mt with
    | .error e => ([e0], .err e)
    | .ok _ =>
      match goIndex searchData id with
      | none => ([e0], .panicked "index out of range")
      | some item =>
        let (tr1, r1) :=
          UpdateWithSelectionResultF env md
            ⟨item.ScraperName, item.ScraperID, item.ScraperData⟩
        match r1 with
        | some e => (e0 :: tr1, .err e)
        | none =>
          if (searchData.length : Int) < id then (e0 :: tr1, .err "invalid id")
          else
            let e2 := Ev.deleteMultipleResults mt md
            match env.dbWrite e2 with
            | some e => (e0 :: tr1 ++ [e2], .err e)
            | none =>
              match goIndex searchData id with
              | some out => (e0 :: tr1 ++ [e2], .ok out)
              | none => (e0 :: tr1 ++ [e2], .panicked "index out of range")

/-- The create-then-link path of `AddTag`, taken when the lookup fails
or returns an empty name: create the tag (propagating a creation error),
then link it to the media. -/
def addTagCreatePath (env : Env) (mt : MediaType) (md : Int) (tag : TagData) :
    List Ev × Option String :=
  match env.AddTag tag with
  | .error e => ([Ev.getTagByValue tag.Name tag.Value, Ev.addTag tag.Name tag.Value], some e)
  | .ok tid =>
      ([Ev.getTagByValue tag.Name tag.Value, Ev.addTag tag.Name tag.Value,
        Ev.addTagLink mt tid md],
       env.dbWrite (Ev.addTagLink mt tid md))

/-- `AddTag`: look the tag up by name+value; if the lookup fails or
returns an empty name, create the tag; then link the tag to the media. -/
def AddTagF (env : Env) (mt : MediaType) (md : Int) (tag : TagData) :
    List Ev × Option String :=
  match env.GetTagByValue tag.Name tag.Value with
  | .error _ => addTagCreatePath env mt md tag
  | .ok tagData =>
      if tagData.Name = "" then addTagCreatePath env mt md tag
      else
        ([Ev.getTagByValue tag.Name tag.Value, Ev.addTagLink mt tagData.ID md],
         env.dbWrite (Ev.addTagLink mt tagData.ID md))

/-- The create-then-link path of `AddPerson`. -/
def addPersonCreatePath (env : Env) (mt : MediaType) (md : Int) (person : PersonData) :
    List Ev × Option String :=
  match env.AddPerson person.Name with
  | .error e => ([Ev.getPersonByName person.Name, Ev.addPerson person.Name], some e)
  | .ok pid =>
      ([Ev.getPersonByName person.Name, Ev.addPerson person.Name,
        Ev.addPersonLink mt pid md],
       env.dbWrite (Ev.addPersonLink mt pid md))

/-- `AddPerson`: look the person up by name; if the lookup fails or
returns an empty name, create the person; then link them to the media. -/
def AddPersonF (env : Env) (mt : MediaType) (md : Int) (person : PersonData) :
    List Ev × Option String :=
  match env.GetPersonByName person.Name with
  | .error _ => addPersonCreatePath env mt md person
  | .ok personData =>
      if personData.Name = "" then addPersonCreatePath env mt md person
      else
        ([Ev.getPersonByName person.Name, Ev.addPersonLink mt personData.ID md],
         env.dbWrite (Ev.addPersonLink mt personData.ID md))

/-- `getProviderFromName` as a predicate: the provider map and the
priority-ordered name list are kept in sync by `loadTVSPlugins`, so a
provider exists exactly when its name is listed. -/
def providerFound (cfg : Cfg) (pname : String) : Bool :=
  cfg.ProviderNames.contains pname

/-- `(*TVSScraper).updateTVS`: resolve the bound provider, `Configure`
it with the show's scraper id/data, fetch the show detail, write the
show metadata (update-mode set to the "just updated" sentinel `-1`;
the call goes through the shared `UpdateShowParams` query with
zero-valued scraper name/id, so it also clears the binding columns),
then fetch and link tags and people (per-item errors of
`AddTag`/`AddPerson` ignored, as in the source). -/
def updateTVSF (env : Env) (cfg : Cfg) (data : ListShowRow) :
    List Ev × Except String ListShowRow :=
  if providerFound cfg data.ScraperName then
    let pn := data.ScraperName
    let sid := data.ScraperID
    let sda := data.ScraperData
    let e1 := Ev.getTVS pn sid sda
    match env.GetTVS pn sid sda with
    | .error e => ([e1], .error e)
    | .ok tvsData =>
      let e2 := Ev.updateShowMeta data.ID tvsData.Title tvsData.ScraperLink
                  tvsData.ScraperData "" "" (-1)
      match env.dbWrite e2 with
      | some e => ([e1, e2], .error e)
      | none =>
        let data' := { data with
          Title := tvsData.Title
          ScraperData := tvsData.ScraperData
          Premiered := tvsData.Premiered }
        let e3 := Ev.listTVSTag pn
        match env.ListTVSTag pn sid sda with
        | .error e => ([e1, e2, e3], .error e)
        | .ok tagData =>
          let trTags := (tagData.map (fun i => (AddTagF env .tvs data.ID i).1)).flatten
          let e4 := Ev.listTVSPerson pn
          match env.ListTVSPerson pn sid sda with
          | .error e => ([e1, e2, e3] ++ trTags ++ [e4], .error e)
          | .ok persData =>
            let trPers :=
              (persData.map (fun i => (AddPersonF env .tvs data.ID i).1)).flatten
            ([e1, e2, e3] ++ trTags ++ [e4] ++ trPers, .ok data')
  else ([], .error ("provider " ++ data.ScraperName ++ " not found"))

/-- `searchTVS` loop of `addTVS`: query every loaded provider in
priority order with the show title, concatenating successful results
and ignoring per-provider errors. -/
def searchAllProviders (env : Env) (cfg : Cfg) (title : String) :
    List Ev × List SearchData :=
  cfg.ProviderNames.foldl
    (fun acc i =>
      (acc.1 ++ [Ev.searchTVS i title],
       match env.SearchTVS i title with
       | .ok res => acc.2 ++ res
       | .error _ => acc.2))
    ([], [])

/-- The in-memory row after `addTVS` applies an auto-selected
candidate: binding fields copied from the candidate and `Path` set to
the title, exactly the assignments of the auto-add block. -/
def bindSel (data : ListShowRow) (selected : SearchData) : ListShowRow :=
  { data with
    ScraperID := selected.ScraperID
    ScraperName := selected.ScraperName
    ScraperData := selected.ScraperData
    Path := data.Title }

/-- The auto-add tail of `addTVS`, after the show row exists: when
`AutoAdd` is set and `SelectBestItem` (year 0) picks a candidate, apply
it via `UpdateWithSelectionResult` (its error ignored by the source),
record the binding on the in-memory row, set `Path := Title`, and force
a metadata refresh via `updateTVS` whose result is returned; otherwise
persist the candidate batch via `AddMultipleResults` (errors ignored)
and return the row unchanged. -/
def addTVSSelect (env : Env) (cfg : Cfg) (data : ListShowRow)
    (searchResults : List SearchData) : List Ev × GoVal ListShowRow :=
  if cfg.AutoAdd then
    match SelectBestItem env.fz searchResults data.Title 0 with
    | .ok selected =>
        ((UpdateWithSelectionResultF env data.ID
            ⟨selected.ScraperName, selected.ScraperID, selected.ScraperData⟩).1
           ++ (updateTVSF env cfg (bindSel data selected)).1,
         goValOfExcept (updateTVSF env cfg (bindSel data selected)).2)
    | .err _ =>
        ((AddMultipleResultsF env .tvs data.ID data.Title).1, .ok data)
    | .panicked m => ([], .panicked m)
  else
    ((AddMultipleResultsF env .tvs data.ID data.Title).1, .ok data)

/-- The show row as it stands after the `data.ID == 0` block of
`addTVS`: a fresh row gets the id returned by a successful `AddShow`
(on `AddShow` failure the function has already returned). -/
def addTVSRow (env : Env) (cfg : Cfg) (data : ListShowRow) : ListShowRow :=
  if data.ID == 0 then
    match env.AddShow data.Title cfg.IDLib with
    | .ok newId => { data with ID := newId }
    | .error _ => data
  else data

/-- `(*TVSScraper).addTVS`: search all providers; fail with
`no data avaiable for show <title>` when nothing was found and
`AddUnknown` is off; create the show row when `data.ID == 0` (the new
id replacing it); then run the auto-add tail. -/
def addTVSF (env : Env) (cfg : Cfg) (data : ListShowRow) :
    List Ev × GoVal ListShowRow :=
  if (searchAllProviders env cfg data.Title).2.isEmpty && !cfg.AddUnknown then
    ((searchAllProviders env cfg data.Title).1,
     .err ("no data avaiable for show " ++ data.Title))
  else
    if data.ID == 0 then
      match env.AddShow data.Title cfg.IDLib with
      | .error e =>
          ((searchAllProviders env cfg data.Title).1
             ++ [Ev.addShow data.Title cfg.IDLib], .err e)
      | .ok newId =>
          ((searchAllProviders env cfg data.Title).1
             ++ [Ev.addShow data.Title cfg.IDLib]
             ++ (addTVSSelect env cfg { data with ID := newId }
                  (searchAllProviders env cfg data.Title).2).1,
           (addTVSSelect env cfg { data with ID := newId }
              (searchAllProviders env cfg data.Title).2).2)
    else
      ((searchAllProviders env cfg data.Title).1
         ++ (addTVSSelect env cfg data (searchAllProviders env cfg data.Title).2).1,
       (addTVSSelect env cfg data (searchAllProviders env cfg data.Title).2).2)

/-- `(*TVSScraper).updateTVSSeasons`: list the show's seasons; for each
with update-mode > 0, fetch the season detail and (on success) write it
back — the store write's error is ignored by the source, a fetch error
only logged; return the list of existing season numbers. -/
def updateTVSSeasonsF (env : Env) (pn sid sda : String) (idshow : Int) :
    List Ev × Except String (List Int) :=
  let e0 := Ev.listShowSeason idshow
  match env.ListShowSeason idshow with
  | .error e => ([e0], .error e)
  | .ok seasonData =>
    let evs := (seasonData.map (fun i =>
      if i.UpdateMode > 0 then
        match env.GetTVSSeason pn sid sda i.Season with
        | .ok _ => [Ev.getTVSSeason pn i.Season, Ev.updateShowSeason idshow i.Season]
        | .error _ => [Ev.getTVSSeason pn i.Season]
      else [])).flatten
    (e0 :: evs, .ok (seasonData.map (·.Season)))

/-- `(*TVSScraper).updateTVSEpisode` on one file path: refresh an
already-catalogued episode when its update-mode allows, or — for a new
file — extract (season, episode) from the base filename, add the season
if unknown (placeholder `Season N` when the provider fails), then add
the episode from provider data, or as a filename-titled placeholder when
`AddUnknown` is set, registering the video file; when extraction fails,
only log. Returns the events and the updated known-season list. -/
def updateTVSEpisodeF (env : Env) (cfg : Cfg) (pn sid sda : String)
    (seasons : List Int) (p : String) (idshow : Int) : List Ev × List Int :=
  let filename := pathBase p
  let e0 := Ev.getVideoFileFromPath cfg.IDLib p
  match env.GetVideoFileFromPath cfg.IDLib p with
  | .ok videoData =>
    let e1 := Ev.getShowEpisode videoData.MediaData
    match env.GetShowEpisode videoData.MediaData with
    | .ok episodeData =>
      if episodeData.UpdateMode > 0 then
        let e2 := Ev.updateVideoFile p
        let e3 := Ev.getTVSEpisode pn episodeData.Season episodeData.Episode
        match env.GetTVSEpisode pn sid sda episodeData.Season episodeData.Episode with
        | .ok epData =>
            ([e0, e1, e2, e3, Ev.updateShowEpisode episodeData.ID epData.Title], seasons)
        | .error _ => ([e0, e1, e2, e3], seasons)
      else ([e0, e1], seasons)
    | .error _ => ([e0, e1], seasons)
  | .error _ =>
    match extractSeasonEpisode filename with
    | none => ([e0], seasons)
    | some (season, episode) =>
      let (trS, seasons') :=
        if utilContains seasons (season : Int) then ([], seasons)
        else
          let eS := Ev.getTVSSeason pn (season : Int)
          match env.GetTVSSeason pn sid sda (season : Int) with
          | .ok sd =>
              ([eS, Ev.addShowSeason idshow (season : Int) sd.Title sd.ScraperName sd.ScraperID],
               seasons ++ [(season : Int)])
          | .error _ =>
              ([eS, Ev.addShowSeason idshow (season : Int)
                  ("Season " ++ toString season) "" ""],
               seasons ++ [(season : Int)])
      let eE := Ev.getTVSEpisode pn (season : Int) (episode : Int)
      match env.GetTVSEpisode pn sid sda (season : Int) (episode : Int) with
      | .ok epData =>
        let eA := Ev.addShowEpisode idshow (season : Int) (episode : Int) epData.Title
        match env.AddShowEpisode idshow (season : Int) (episode : Int) epData.Title with
        | .ok idEp =>
            (e0 :: trS ++ [eE, eA, Ev.addVideoFile cfg.IDLib p idEp], seasons')
        | .error _ => (e0 :: trS ++ [eE, eA], seasons')
      | .error _ =>
        if cfg.AddUnknown then
          let eA := Ev.addShowEpisode idshow (season : Int) (episode : Int) filename
          match env.AddShowEpisode idshow (season : Int) (episode : Int) filename with
          | .ok idEp =>
              (e0 :: trS ++ [eE, eA, Ev.addVideoFile cfg.IDLib p idEp], seasons')
          | .error _ => (e0 :: trS ++ [eE, eA], seasons')
        else (e0 :: trS ++ [eE], seasons')

/-- `(*TVSScraper).updateTVSEpisodes`: resolve the bound provider,
refresh the existing seasons, list the files under the show's folder
(`ListFiles`, repository code not under `src/`, modelled from the spec
as the recursive file listing), and run `updateTVSEpisode` on each video
file, threading the known-season list through. -/
def updateTVSEpisodesF (env : Env) (cfg : Cfg) (data : ListShowRow) :
    List Ev × Option String :=
  if providerFound cfg data.ScraperName then
    let pn := data.ScraperName
    let (tr0, rs) := updateTVSSeasonsF env pn data.ScraperID data.ScraperData data.ID
    match rs with
    | .error e => (tr0, some e)
    | .ok seasons0 =>
      let tvsPath := cfg.LibPath ++ "/" ++ data.Path
      let e1 := Ev.listFiles tvsPath
      let step := fun (acc : List Ev × List Int) (i : String) =>
        let p := data.Path ++ "/" ++ i
        if env.IsVideo p then
          let (tr, ss) :=
            updateTVSEpisodeF env cfg pn data.ScraperID data.ScraperData acc.2 p data.ID
          (acc.1 ++ tr, ss)
        else acc
      let (trF, _) := (env.ListFiles tvsPath).foldl step ([], seasons0)
      (tr0 ++ [e1] ++ trF, none)
  else ([], some ("provider " ++ data.ScraperName ++ " not found"))

/-- A directory entry seen by `Scan` (`fs.DirEntry`: name and
directory flag). -/
structure DirEntry where
  name : String
  isDir : Bool
deriving DecidableEq, Repr

/-- The show-level half of `processItemScan`: the branch on whether the
folder is a known catalog path, whether updates are allowed, and whether
a (non-blank) binding exists, yielding the trace so far and the
`(data, err)` pair the episode step inspects. -/
def processItemScanCore (env : Env) (cfg : Cfg) (entry : DirEntry)
    (tvsPaths : List String) (tvsData : List ListShowRow) :
    List Ev × GoVal ListShowRow :=
  if utilIndex tvsPaths entry.name > -1 then
    match goIndex tvsData (utilIndex tvsPaths entry.name) with
    | some d =>
      if d.UpdateMode > 0 then
        if d.ScraperID = "" || d.ScraperName = "" || d.ScraperName = " " then
          addTVSF env cfg d
        else ((updateTVSF env cfg d).1, goValOfExcept (updateTVSF env cfg d).2)
      else ([], .ok d)
    | none => ([], GoVal.panicked "index out of range")
  else addTVSF env cfg { ListShowRow.zero with Title := entry.name }

/-- `(*TVSScraper).processItemScan` on one directory entry: skip
non-directories; run the show-level branch; afterwards, when no error
occurred and a scraper is bound, update the episodes. All errors are
logged, none returned (the function has no return value in the
source). -/
def processItemScanF (env : Env) (cfg : Cfg) (entry : DirEntry)
    (tvsPaths : List String) (tvsData : List ListShowRow) : List Ev :=
  if entry.isDir then
    match (processItemScanCore env cfg entry tvsPaths tvsData).2 with
    | .ok data =>
        if data.ScraperID ≠ "" then
          (processItemScanCore env cfg entry tvsPaths tvsData).1
            ++ (updateTVSEpisodesF env cfg data).1
        else (processItemScanCore env cfg entry tvsPaths tvsData).1
    | _ => (processItemScanCore env cfg entry tvsPaths tvsData).1
  else []

/-- Outcomes of the three pre-scan steps of `Scan`: the library lookup
(yielding the root path), the catalog show-list read, and the directory
listing. -/
structure ScanEnv where
  GetLibrary : Except String String
  ListShow : Except String (List ListShowRow)
  ReadDir : Except String (List DirEntry)

/-- `(*TVSScraper).Scan`: the three pre-scan reads, each aborting the
scan with its error (the library failure wrapped with
`unable to retreive library path: `); then every entry is handed to
`processItemScan`, which returns nothing, and `Scan` returns `nil` in
both the sequential (`MaxConcurrentScans < 2`) and the semaphore-bounded
concurrent branch. The trace is the per-entry traces in directory
order; in the concurrent branch these interleave nondeterministically
(see the `ScanStep` transition system), but the same entries are
processed and the return value is the same. -/
def ScanF (env : Env) (senv : ScanEnv) (providerNames : List String)
    (idlib : Int) (conf : ScraperScanConfig) : List Ev × Option String :=
  match senv.GetLibrary with
  | .error e => ([], some ("unable to retreive library path: " ++ e))
  | .ok libPath =>
    match senv.ListShow with
    | .error e => ([], some e)
    | .ok tvsData =>
      let tvsPaths := tvsData.map (·.Path)
      match senv.ReadDir with
      | .error e => ([], some e)
      | .ok items =>
        let cfg : Cfg := ⟨idlib, libPath, conf.AutoAdd, conf.AddUnknown, providerNames⟩
        ((items.map (fun i => processItemScanF env cfg i tvsPaths tvsData)).flatten, none)

/-- Demo environment for concrete witnesses: every provider and store
call fails (or returns nothing), standing in for an empty store and
unreachable providers. -/
def demoEnv0 : Env where
  fz := demoFz
  SearchTVS := fun _ _ => .error "unreachable"
  GetTVS := fun _ _ _ => .error "unreachable"
  GetTVSSeason := fun _ _ _ _ => .error "unreachable"
  GetTVSEpisode := fun _ _ _ _ _ => .error "unreachable"
  ListTVSTag := fun _ _ _ => .error "unreachable"
  ListTVSPerson := fun _ _ _ => .error "unreachable"
  AddShow := fun _ _ => .error "store down"
  GetMultipleResults := fun _ _ => .error "store down"
  GetTagByValue := fun _ _ => .error "store down"
  AddTag := fun _ => .error "store down"
  GetPersonByName := fun _ => .error "store down"
  AddPerson := fun _ => .error "store down"
  ListShowSeason := fun _ => .error "store down"
  ListFiles := fun _ => []
  IsVideo := fun _ => false
  GetVideoFileFromPath := fun _ _ => .error "no row"
  GetShowEpisode := fun _ => .error "no row"
  AddShowEpisode := fun _ _ _ _ => .error "store down"
  AddVideoFile := fun _ _ _ => .error "store down"
  dbWrite := fun _ => none

/-- Demo configuration for concrete witnesses. -/
def demoCfg0 : Cfg := ⟨4, "/lib", false, false, ["prov"]⟩

/-- Is this event the `AddShow` insert? -/
def Ev.isAddShow : Ev → Bool
  | .addShow _ _ => true
  | _ => false

/-- Did this store/collaborator call succeed? -/
def isOkE {α : Type} : Except String α → Bool
  | .ok _ => true
  | .error _ => false

/-! ## The concurrent branch of `Scan` as a transition system

For `MaxConcurrentScans ≥ 2`, `Scan` runs each entry in its own
goroutine behind a weighted semaphore of capacity `N` and a wait group:
the main loop, per entry, does `wg.Add(1)`, `sem.Acquire(1)` (blocking
while no permit is free), and spawns the goroutine, which runs
`processItemScan` and then releases its permit; `Scan` returns after
`wg.Wait()`. The system below is that code with one state per
scheduling decision: `spawn` is the main loop admitting the next entry
(only enabled when a permit is free), `finish` is a running goroutine
completing and releasing. A `Scan` return corresponds to a state with
nothing pending and nothing running. -/

/-- State of the concurrent scan loop: entries not yet admitted (in
directory order), free semaphore permits, entries currently in flight,
entries completed. -/
structure ScanState where
  pending : List String
  avail : Nat
  running : Multiset String
  done : Multiset String
deriving DecidableEq

/-- One scheduling step of the concurrent scan loop. -/
inductive ScanStep : ScanState → ScanState → Prop where
  | spawn (e : String) (rest : List String) (avail : Nat)
      (running done : Multiset String) :
      ScanStep ⟨e :: rest, avail + 1, running, done⟩
        ⟨rest, avail, e ::ₘ running, done⟩
  | finish (e : String) (pending : List String) (avail : Nat)
      (running done : Multiset String) :
      e ∈ running →
      ScanStep ⟨pending, avail, running, done⟩
        ⟨pending, avail + 1, running.erase e, e ::ₘ done⟩

/-- Initial state: all entries pending, `N` permits free. -/
def scanInit (N : Nat) (items : List String) : ScanState :=
  ⟨items, N, 0, 0⟩

/-- Invariant of the concurrent scan loop: permits plus in-flight
entries account for the capacity, and every entry is pending, running,
or done (with its original multiplicity). -/
def ScanInv (N : Nat) (items : List String) (s : ScanState) : Prop :=
  s.avail + Multiset.card s.running = N ∧
  (↑s.pending + s.running + s.done : Multiset String) = ↑items

/-- Demo environment with one reachable provider returning one exact
match, whose detail fetch fails; used to witness the auto-add path. -/
def demoEnv9 : Env :=
  { demoEnv0 with
    SearchTVS := fun _ _ => .ok [⟨"MyShow", "prov", "42", "blob", 0⟩]
    GetTVS := fun _ _ _ => .error "boom" }

/-- Demo environment like `demoEnv9` except that the detail fetch
succeeds and the refresh then fails at the tag listing — so the
refresh's own `UpdateShow` has already run. -/
def demoEnv9b : Env :=
  { demoEnv9 with
    GetTVS := fun _ _ _ => .ok ⟨"MyShow", 99, "link", "data2"⟩
    ListTVSTag := fun _ _ _ => .error "tagboom" }

/-- Demo configuration with auto-add on. -/
def demoCfg9 : Cfg := ⟨4, "/lib", true, true, ["prov"]⟩

/-- Demo show row already present in the catalog (id 7). -/
def demoData9 : ListShowRow := { ListShowRow.zero with ID := 7, Title := "MyShow" }

/-- Demo environment whose store holds a one-candidate batch; used to
evaluate `SelectScraperResult` concretely. -/
def demoEnv6 : Env :=
  { demoEnv0 with
    GetMultipleResults := fun _ _ => .ok [⟨"Foo", "prov", "42", "d", 0⟩] }

/-! ## Lemmas about the match selector -/

theorem foldl_bestStep_spec (score : String → String → Nat) (q : String) :
    ∀ (cs : List String) (init : MatchPair),
      init.Score = score q init.Match →
      (List.foldl (bestStep score q) init cs = init
        ∨ (List.foldl (bestStep score q) init cs).Match ∈ cs) ∧
      (List.foldl (bestStep score q) init cs).Score
        = score q (List.foldl (bestStep score q) init cs).Match ∧
      init.Score ≤ (List.foldl (bestStep score q) init cs).Score ∧
      ∀ x ∈ cs, score q x ≤ (List.foldl (bestStep score q) init cs).Score
  | [], init, h => ⟨Or.inl rfl, h, le_refl _, by simp⟩
  | c :: cs, init, h => by
      have hstep : (bestStep score q init c).Score
          = score q (bestStep score q init c).Match := by
        unfold bestStep
        split
        · rfl
        · exact h
      have hmono : init.Score ≤ (bestStep score q init c).Score := by
        unfold bestStep
        split
        · exact Nat.le_of_lt (by assumption)
        · exact Nat.le_refl _
      have hc : score q c ≤ (bestStep score q init c).Score := by
        unfold bestStep
        split
        · exact Nat.le_refl _
        · exact Nat.le_of_not_lt (by assumption)
      obtain ⟨h1, h2, h3, h4⟩ := foldl_bestStep_spec score q cs (bestStep score q init c) hstep
      refine ⟨?_, ?_, ?_, ?_⟩
      · rcases h1 with h1 | h1
        · rw [List.foldl_cons, h1]
          unfold bestStep
          split
          · exact Or.inr (List.mem_cons_self _ _)
          · exact Or.inl rfl
        · exact Or.inr (List.mem_cons_of_mem _ h1)
      · rw [List.foldl_cons]
        exact h2
      · rw [List.foldl_cons]
        exact le_trans hmono h3
      · intro x hx
        rw [List.foldl_cons]
        rcases List.mem_cons.mp hx with hx | hx
        · subst hx
          exact le_trans hc h3
        · exact h4 x hx

theorem extractOne_spec {score : String → String → Nat} {q : String}
    {cs : List String} {m : MatchPair} (h : extractOne score q cs = some m) :
    m.Match ∈ cs ∧ m.Score = score q m.Match ∧ ∀ x ∈ cs, score q x ≤ m.Score := by
  cases cs with
  | nil => simp [extractOne] at h
  | cons c rest =>
      simp only [extractOne, Option.some.injEq] at h
      obtain ⟨h1, h2, h3, h4⟩ :=
        foldl_bestStep_spec score q rest (⟨c, score q c⟩ : MatchPair) rfl
      subst h
      refine ⟨?_, h2, ?_⟩
      · rcases h1 with h1 | h1
        · rw [h1]
          exact List.mem_cons_self _ _
        · exact List.mem_cons_of_mem _ h1
      · intro x hx
        rcases List.mem_cons.mp hx with hx | hx
        · subst hx
          exact h3
        · exact h4 x hx

theorem extractOne_eq_none {score : String → String → Nat} {q : String}
    {cs : List String} (h : cs = []) : extractOne score q cs = none := by
  subst h
  rfl

theorem firstIndexOf_isSome {x : String} :
    ∀ {xs : List String}, x ∈ xs → (firstIndexOf x xs).isSome
  | y :: ys, h => by
      simp only [firstIndexOf]
      split
      · rfl
      · rcases List.mem_cons.mp h with h | h
        · subst h
          simp_all
        · have := @firstIndexOf_isSome x ys h
          cases hfi : firstIndexOf x ys with
          | none => rw [hfi] at this; simp at this
          | some n => simp

theorem firstIndexOf_get {x : String} :
    ∀ {xs : List String} {n : Nat}, firstIndexOf x xs = some n →
      xs.get? n = some x
  | y :: ys, n, h => by
      simp only [firstIndexOf] at h
      split at h
      · cases h
        simp_all
      · cases hfi : firstIndexOf x ys with
        | none => rw [hfi] at h; simp at h
        | some k =>
            rw [hfi] at h
            simp only [Option.map_some'] at h
            cases h
            simpa using @firstIndexOf_get x ys k hfi

/-- Successful selection: the returned item is among the (possibly
year-filtered) candidates, its title is the best fuzzy match, and its
score exceeds 85. -/
theorem SelectBestItem_ok {fz : FuzzyEnv} {items : List SearchData}
    {title : String} {year : Int} {it : SearchData}
    (h : SelectBestItem fz items title year = .ok it) :
    it ∈ filterByYear fz items year ∧ fz.score title it.Title > 85 := by
  unfold SelectBestItem at h
  cases hE : extractOne fz.score title ((filterByYear fz items year).map (·.Title)) with
  | none => rw [hE] at h; exact absurd h (by simp)
  | some m =>
      rw [hE] at h
      dsimp only at h
      obtain ⟨hmem, hscore, _⟩ := extractOne_spec hE
      by_cases hS : m.Score > 85
      · rw [if_pos hS] at h
        have hfi := firstIndexOf_isSome hmem
        cases hfio : firstIndexOf m.Match ((filterByYear fz items year).map (·.Title)) with
        | none => rw [hfio] at hfi; simp at hfi
        | some n =>
            have hget := firstIndexOf_get hfio
            have hIdx : utilIndex ((filterByYear fz items year).map (·.Title)) m.Match
                = (n : Int) := by
              unfold utilIndex
              rw [hfio]
            rw [hIdx] at h
            have hnn : ¬ ((n : Int) < 0) := by omega
            unfold goIndex at h
            rw [if_neg hnn] at h
            have hton : ((n : Int)).toNat = n := Int.toNat_ofNat n
            rw [hton] at h
            cases hgi : (filterByYear fz items year).get? n with
            | none =>
                have : ((filterByYear fz items year).map (·.Title)).get? n = none := by
                  rw [List.get?_map, hgi]
                  rfl
                rw [this] at hget
                cases hget
            | some it2 =>
                rw [hgi] at h
                have h2 : it2 = it := by injection h
                have hT : ((filterByYear fz items year).map (·.Title)).get? n
                    = some it2.Title := by
                  rw [List.get?_map, hgi]
                  rfl
                rw [hT] at hget
                have hTitle : it2.Title = m.Match := by injection hget
                subst h2
                constructor
                · exact List.get?_mem hgi
                · rw [hTitle, ← hscore]
                  exact hS
      · rw [if_neg hS] at h
        exact absurd h (by simp)

/-- The selector never panics: the matched title always comes from the
names list just built, so the `util.Index` position is in range. -/
theorem SelectBestItem_no_panic (fz : FuzzyEnv) (items : List SearchData)
    (title : String) (year : Int) (msg : String) :
    SelectBestItem fz items title year ≠ .panicked msg := by
  unfold SelectBestItem
  cases hE : extractOne fz.score title ((filterByYear fz items year).map (·.Title)) with
  | none => simp
  | some m =>
      dsimp only
      obtain ⟨hmem, _, _⟩ := extractOne_spec hE
      by_cases hS : m.Score > 85
      · rw [if_pos hS]
        have hfi := firstIndexOf_isSome hmem
        cases hfio : firstIndexOf m.Match ((filterByYear fz items year).map (·.Title)) with
        | none => rw [hfio] at hfi; simp at hfi
        | some n =>
            have hget := firstIndexOf_get hfio
            have hIdx : utilIndex ((filterByYear fz items year).map (·.Title)) m.Match
                = (n : Int) := by
              unfold utilIndex
              rw [hfio]
            rw [hIdx]
            have hnn : ¬ ((n : Int) < 0) := by omega
            unfold goIndex
            rw [if_neg hnn]
            have hton : ((n : Int)).toNat = n := Int.toNat_ofNat n
            rw [hton]
            have hlt : n < ((filterByYear fz items year).map (·.Title)).length := by
              by_contra hcon
              push_neg at hcon
              rw [List.get?_eq_none.mpr hcon] at hget
              cases hget
            have hlt2 : n < (filterByYear fz items year).length := by
              simpa using hlt
            cases hgi : (filterByYear fz items year).get? n with
            | none =>
                have := List.get?_eq_none.mp hgi
                omega
            | some it' => simp
      · rw [if_neg hS]
        simp

/-- When every (filtered) candidate scores at most 85, selection fails
with `no data`. -/
theorem SelectBestItem_err_of_low {fz : FuzzyEnv} {items : List SearchData}
    {title : String} {year : Int}
    (h : ∀ i ∈ filterByYear fz items year, fz.score title i.Title ≤ 85) :
    SelectBestItem fz items title year = .err "no data" := by
  unfold SelectBestItem
  cases hE : extractOne fz.score title ((filterByYear fz items year).map (·.Title)) with
  | none => rfl
  | some m =>
      obtain ⟨hmem, hscore, _⟩ := extractOne_spec hE
      obtain ⟨i, hi, hti⟩ := List.mem_map.mp hmem
      have : m.Score ≤ 85 := by
        rw [hscore, ← hti]
        exact h i hi
      dsimp only
      rw [if_neg (by omega)]

/-- When the (filtered) candidate set is empty, selection fails with
`no data`. -/
theorem SelectBestItem_err_of_empty {fz : FuzzyEnv} {items : List SearchData}
    {title : String} {year : Int} (h : filterByYear fz items year = []) :
    SelectBestItem fz items title year = .err "no data" := by
  unfold SelectBestItem
  rw [h]
  rfl

theorem filterByYear_subset {fz : FuzzyEnv} {items : List SearchData}
    {year : Int} {i : SearchData} (h : i ∈ filterByYear fz items year) :
    i ∈ items := by
  unfold filterByYear at h
  split at h
  · exact List.mem_of_mem_filter h
  · exact h

/-! ## Claim C1 -/

/-- C1: for every candidate list and target title (and either year
argument), `SelectBestItem` returns a candidate only if that candidate's
fuzzy-similarity score against the target title exceeds 85, and whenever
no candidate scores above 85 it returns the error `no data` and no
candidate. Quantified over every fuzzy scorer and year function, since
those are external to the repository. -/
theorem claim_C1_select_threshold (fz : FuzzyEnv) (items : List SearchData)
    (title : String) (year : Int) :
    (∀ it, SelectBestItem fz items title year = .ok it →
      fz.score title it.Title > 85) ∧
    ((∀ i ∈ items, fz.score title i.Title ≤ 85) →
      SelectBestItem fz items title year = .err "no data") := by
  constructor
  · intro it h
    exact (SelectBestItem_ok h).2
  · intro h
    exact SelectBestItem_err_of_low fun i hi => h i (filterByYear_subset hi)

/-- Witness for C1 at a concrete input: with an exact-match scorer and a
target matching no candidate, selection fails with `no data`. -/
theorem claim_C1_select_threshold_witness :
    SelectBestItem demoFz [⟨"Alpha", "p", "1", "d", 0⟩] "Zzz" 0
      = GoVal.err "no data" :=
  (claim_C1_select_threshold demoFz [⟨"Alpha", "p", "1", "d", 0⟩] "Zzz" 0).2
    (by decide)

/-! ## Claim C7 -/

/-- C7 counterexample: the claim says every NON-ZERO year restricts the
candidate set, but the source only filters when `year > 0`. With the
non-zero year `-1` the full set is used, and a candidate whose premiere
year (1970) differs from `-1` is returned as soon as it matches the
title exactly (score 100 under the real scorer as well). -/
theorem claim_C7_year_filter_counterexample :
    SelectBestItem demoFz [⟨"Foo", "p", "1", "d", 15724800⟩] "Foo" (-1)
        = GoVal.ok ⟨"Foo", "p", "1", "d", 15724800⟩ ∧
      demoFz.yearOfUnix 15724800 ≠ -1 := by
  decide

/-- C7 as amended: for every POSITIVE year argument the candidate set is
restricted to the candidates whose premiere timestamp falls in that
year, so a returned candidate's premiere year always equals it; with a
year ≤ 0 (in particular the zero used by the auto-add path) the full
candidate set is used. -/
theorem claim_C7_year_filter_amended (fz : FuzzyEnv) (items : List SearchData)
    (title : String) (year : Int) :
    (0 < year → ∀ it, SelectBestItem fz items title year = .ok it →
      fz.yearOfUnix it.Premiered = year) ∧
    (year ≤ 0 →
      SelectBestItem fz items title year = SelectBestItem fz items title 0) := by
  constructor
  · intro hy it h
    have hmem := (SelectBestItem_ok h).1
    unfold filterByYear at hmem
    rw [if_pos (by omega)] at hmem
    have := List.of_mem_filter hmem
    exact_mod_cast beq_iff_eq.mp this
  · intro hy
    have hf : filterByYear fz items year = filterByYear fz items 0 := by
      unfold filterByYear
      rw [if_neg (by omega), if_neg (by omega)]
    unfold SelectBestItem
    rw [hf]

/-- Witness for the amended C7: a candidate premiered on Unix time
15724800 (mid-1970) is only returned for year 1970, and the theorem ties
the supplied year to the candidate's premiere year. -/
theorem claim_C7_year_filter_amended_witness :
    demoFz.yearOfUnix 15724800 = 1970 :=
  (claim_C7_year_filter_amended demoFz [⟨"Foo", "p", "1", "d", 15724800⟩]
      "Foo" 1970).1 (by decide) ⟨"Foo", "p", "1", "d", 15724800⟩ (by decide)

/-! ## Claim C10 -/

/-- C10: `SelectBestItem` is total: with an empty candidate list, or a
year filter that excludes every candidate, it returns the `no data`
error; and on no input does it reach the out-of-range panic — the
success branch only indexes with a position found in the names list it
just built. -/
theorem claim_C10_select_total (fz : FuzzyEnv) (items : List SearchData)
    (title : String) (year : Int) :
    (items = [] → SelectBestItem fz items title year = .err "no data") ∧
    (filterByYear fz items year = [] →
      SelectBestItem fz items title year = .err "no data") ∧
    (∀ msg, SelectBestItem fz items title year ≠ .panicked msg) := by
  refine ⟨?_, ?_, SelectBestItem_no_panic fz items title year⟩
  · intro h
    apply SelectBestItem_err_of_empty
    subst h
    unfold filterByYear
    split <;> rfl
  · exact SelectBestItem_err_of_empty

/-- Witness for C10 at a concrete input: a year filter excluding the
only candidate (premiered 1970, year asked 1999) yields `no data`. -/
theorem claim_C10_select_total_witness :
    SelectBestItem demoFz [⟨"Foo", "p", "1", "d", 15724800⟩] "Foo" 1999
      = GoVal.err "no data" :=
  (claim_C10_select_total demoFz [⟨"Foo", "p", "1", "d", 15724800⟩]
      "Foo" 1999).2.1 (by decide)

/-! ## Lemmas about the filename extractor -/

theorem matchSeasonAt_sound {c : Char} {rest ds : List Char}
    (h : matchSeasonAt (c :: rest) = some ds) :
    ∃ e post, rest = ds ++ e :: post ∧ isSChar c = true ∧ isEChar e = true ∧
      ds ≠ [] ∧ ∀ d ∈ ds, d.isDigit = true := by
  simp only [matchSeasonAt] at h
  split at h
  case isFalse => cases h
  case isTrue hs =>
    split at h
    case h_2 => cases h
    case h_1 e post hd =>
      split at h
      case isTrue => cases h
      case isFalse hne =>
        split at h
        case isFalse => cases h
        case isTrue he =>
          cases h
          refine ⟨e, post, ?_, hs, he, ?_, ?_⟩
          · rw [← hd]
            exact (List.takeWhile_append_dropWhile Char.isDigit rest).symm
          · simpa using hne
          · intro d hd2
            exact List.mem_takeWhile_imp hd2

theorem matchEpisodeAt_sound {c : Char} {rest es : List Char}
    (h : matchEpisodeAt (c :: rest) = some es) :
    ∃ ds e post, rest = ds ++ e :: (es ++ post) ∧ isSChar c = true ∧
      isEChar e = true ∧ ds ≠ [] ∧ es ≠ [] ∧
      (∀ d ∈ ds, d.isDigit = true) ∧ ∀ d ∈ es, d.isDigit = true := by
  simp only [matchEpisodeAt] at h
  split at h
  case isFalse => cases h
  case isTrue hs =>
    split at h
    case h_2 => cases h
    case h_1 e rest2 hd =>
      split at h
      case isTrue => cases h
      case isFalse hne =>
        split at h
        case isFalse => cases h
        case isTrue he =>
          split at h
          case isTrue => cases h
          case isFalse hne2 =>
            cases h
            refine ⟨rest.takeWhile Char.isDigit, e,
              rest2.dropWhile Char.isDigit, ?_, hs, he, ?_, ?_, ?_, ?_⟩
            · rw [List.takeWhile_append_dropWhile Char.isDigit rest2, ← hd]
              exact (List.takeWhile_append_dropWhile Char.isDigit rest).symm
            · simpa using hne
            · simpa using hne2
            · intro d hd2
              exact List.mem_takeWhile_imp hd2
            · intro d hd2
              exact List.mem_takeWhile_imp hd2

theorem scanFirst_season_sound : ∀ {cs ds : List Char},
    scanFirst matchSeasonAt cs = some ds → SeasonTokenPresent cs
  | [], ds, h => by simp [scanFirst] at h
  | c :: rest, ds, h => by
      simp only [scanFirst] at h
      cases hm : matchSeasonAt (c :: rest) with
      | some ds0 =>
          obtain ⟨e, post, hrest, hs, he, hne, hdig⟩ := matchSeasonAt_sound hm
          exact ⟨[], c, ds0, e, post, by simp [hrest], hs, he, hne, hdig⟩
      | none =>
          rw [hm] at h
          dsimp only at h
          obtain ⟨pre, s, ds1, e, post, hcs, hs, he, hne, hdig⟩ :=
            scanFirst_season_sound h
          exact ⟨c :: pre, s, ds1, e, post, by rw [hcs]; rfl, hs, he, hne, hdig⟩

theorem scanFirst_episode_sound : ∀ {cs es : List Char},
    scanFirst matchEpisodeAt cs = some es → EpisodeTokenPresent cs
  | [], es, h => by simp [scanFirst] at h
  | c :: rest, es, h => by
      simp only [scanFirst] at h
      cases hm : matchEpisodeAt (c :: rest) with
      | some es0 =>
          obtain ⟨ds, e, post, hrest, hs, he, hne, hne2, hdig, hdig2⟩ :=
            matchEpisodeAt_sound hm
          exact ⟨[], c, ds, e, es0, post, by simp [hrest], hs, he, hne, hne2, hdig, hdig2⟩
      | none =>
          rw [hm] at h
          dsimp only at h
          obtain ⟨pre, s, ds, e, es1, post, hcs, hs, he, hne, hne2, hdig, hdig2⟩ :=
            scanFirst_episode_sound h
          exact ⟨c :: pre, s, ds, e, es1, post, by rw [hcs]; rfl,
            hs, he, hne, hne2, hdig, hdig2⟩

/-! ## Claim C2 -/

/-- C2: season/episode extraction succeeds only when both the
`S<number>E` season token and the following `E<number>` episode token
are present and non-empty; `Show.Name.S02E05.mkv` yields (2, 5);
`Show.Name.Episode5.mkv` (episode number but no season token) fails
extraction; and when extraction fails on a file with no catalog entry,
`updateTVSEpisode` performs nothing beyond the failed lookup — no store
write at all, so no catalog entry is created for that file. -/
theorem claim_C2_extraction :
    extractSeasonEpisode "Show.Name.S02E05.mkv" = some (2, 5) ∧
    extractSeasonEpisode "Show.Name.Episode5.mkv" = none ∧
    (∀ f sn en, extractSeasonEpisode f = some (sn, en) →
      SeasonTokenPresent f.data ∧ EpisodeTokenPresent f.data) ∧
    (∀ (env : Env) (cfg : Cfg) (pn sid sda : String) (seasons : List Int)
        (p : String) (idshow : Int) (err : String),
      env.GetVideoFileFromPath cfg.IDLib p = .error err →
      extractSeasonEpisode (pathBase p) = none →
      updateTVSEpisodeF env cfg pn sid sda seasons p idshow
        = ([Ev.getVideoFileFromPath cfg.IDLib p], seasons)) := by
  refine ⟨by decide, by decide, ?_, ?_⟩
  · intro f sn en h
    unfold extractSeasonEpisode at h
    cases hS : scanFirst matchSeasonAt f.data with
    | none => rw [hS] at h; cases h
    | some sd =>
        cases hE : scanFirst matchEpisodeAt f.data with
        | none => rw [hS, hE] at h; cases h
        | some ed =>
            exact ⟨scanFirst_season_sound hS, scanFirst_episode_sound hE⟩
  · intro env cfg pn sid sda seasons p idshow err h1 h2
    simp only [updateTVSEpisodeF, h1, h2]

/-- Witness for C2's per-file conjunct at a concrete input: a file named
`Show.Name.Episode5.mkv` with no catalog entry produces only the failed
lookup, and the known-season list is unchanged. -/
theorem claim_C2_extraction_witness :
    updateTVSEpisodeF demoEnv0 demoCfg0 "prov" "1" "d" []
        "Show.Name.Episode5.mkv" 7
      = ([Ev.getVideoFileFromPath 4 "Show.Name.Episode5.mkv"], []) :=
  claim_C2_extraction.2.2.2 demoEnv0 demoCfg0 "prov" "1" "d" []
    "Show.Name.Episode5.mkv" 7 "no row" rfl (by decide)

/-! ## Claim C5 -/

/-- C5: `UpdateWithSelectionResult` performs its five store writes in
the fixed order (1) show binding + force update-mode, (2) all seasons
forced with bindings cleared, (3) all episodes forced with bindings
cleared, (4) all tag links deleted, (5) all person links deleted: on
success the trace is exactly `uwsrOps`; on failure the trace is the
prefix of `uwsrOps` ending at the first failing step — k earlier steps
all succeeded, the failing step's error is returned, and no later step
runs. -/
theorem claim_C5_applier_order (env : Env) (id : Int) (sel : SelectionResult) :
    ((UpdateWithSelectionResultF env id sel).2 = none →
      (UpdateWithSelectionResultF env id sel).1 = uwsrOps id sel) ∧
    (∀ e, (UpdateWithSelectionResultF env id sel).2 = some e →
      ∃ k op, k < 5 ∧ (uwsrOps id sel).get? k = some op ∧
        env.dbWrite op = some e ∧
        (UpdateWithSelectionResultF env id sel).1 = (uwsrOps id sel).take (k + 1) ∧
        ∀ op2 ∈ (uwsrOps id sel).take k, env.dbWrite op2 = none) := by
  cases h1 : env.dbWrite (Ev.updateShowSel id sel.ScraperName sel.ScraperID sel.ScraperData 1) with
  | some e1 =>
      refine ⟨?_, ?_⟩
      · intro h
        simp only [UpdateWithSelectionResultF, h1] at h
        cases h
      · intro e h
        simp only [UpdateWithSelectionResultF, h1, Option.some.injEq] at h
        subst h
        exact ⟨0, _, by omega, rfl, h1, by simp [UpdateWithSelectionResultF, h1, uwsrOps], by simp⟩
  | none =>
  cases h2 : env.dbWrite (Ev.updateShowAllSeasons id " " "0" 1) with
  | some e2 =>
      refine ⟨?_, ?_⟩
      · intro h
        simp only [UpdateWithSelectionResultF, h1, h2] at h
        cases h
      · intro e h
        simp only [UpdateWithSelectionResultF, h1, h2, Option.some.injEq] at h
        subst h
        refine ⟨1, _, by omega, rfl, h2, by simp [UpdateWithSelectionResultF, h1, h2, uwsrOps], ?_⟩
        intro op2 hop
        simp only [uwsrOps, List.take, List.mem_cons, List.not_mem_nil, or_false] at hop
        subst hop
        exact h1
  | none =>
  cases h3 : env.dbWrite (Ev.updateShowAllEpisodes id " " "0" 1) with
  | some e3 =>
      refine ⟨?_, ?_⟩
      · intro h
        simp only [UpdateWithSelectionResultF, h1, h2, h3] at h
        cases h
      · intro e h
        simp only [UpdateWithSelectionResultF, h1, h2, h3, Option.some.injEq] at h
        subst h
        refine ⟨2, _, by omega, rfl, h3, by simp [UpdateWithSelectionResultF, h1, h2, h3, uwsrOps], ?_⟩
        intro op2 hop
        simp only [uwsrOps, List.take, List.mem_cons, List.not_mem_nil, or_false] at hop
        rcases hop with hop | hop <;> subst hop
        · exact h1
        · exact h2
  | none =>
  cases h4 : env.dbWrite (Ev.deleteAllTagLinks .tvs id) with
  | some e4 =>
      refine ⟨?_, ?_⟩
      · intro h
        simp only [UpdateWithSelectionResultF, h1, h2, h3, h4] at h
        cases h
      · intro e h
        simp only [UpdateWithSelectionResultF, h1, h2, h3, h4, Option.some.injEq] at h
        subst h
        refine ⟨3, _, by omega, rfl, h4, by simp [UpdateWithSelectionResultF, h1, h2, h3, h4, uwsrOps], ?_⟩
        intro op2 hop
        simp only [uwsrOps, List.take, List.mem_cons, List.not_mem_nil, or_false] at hop
        rcases hop with hop | hop | hop <;> subst hop
        · exact h1
        · exact h2
        · exact h3
  | none =>
  cases h5 : env.dbWrite (Ev.deleteAllPersonLinks .tvs id) with
  | some e5 =>
      refine ⟨?_, ?_⟩
      · intro h
        simp only [UpdateWithSelectionResultF, h1, h2, h3, h4, h5] at h
        cases h
      · intro e h
        simp only [UpdateWithSelectionResultF, h1, h2, h3, h4, h5, Option.some.injEq] at h
        subst h
        refine ⟨4, _, by omega, rfl, h5, by simp [UpdateWithSelectionResultF, h1, h2, h3, h4, h5, uwsrOps], ?_⟩
        intro op2 hop
        simp only [uwsrOps, List.take, List.mem_cons, List.not_mem_nil, or_false] at hop
        rcases hop with hop | hop | hop | hop <;> subst hop
        · exact h1
        · exact h2
        · exact h3
        · exact h4
  | none =>
      refine ⟨?_, ?_⟩
      · intro _
        simp [UpdateWithSelectionResultF, h1, h2, h3, h4, h5, uwsrOps]
      · intro e h
        simp only [UpdateWithSelectionResultF, h1, h2, h3, h4, h5] at h
        cases h

/-- Witness for C5 at a concrete input: with every store write
succeeding, the trace is exactly the five ordered writes. -/
theorem claim_C5_applier_order_witness :
    (UpdateWithSelectionResultF demoEnv0 7 ⟨"tmdb", "42", "blob"⟩).1
      = uwsrOps 7 ⟨"tmdb", "42", "blob"⟩ :=
  (claim_C5_applier_order demoEnv0 7 ⟨"tmdb", "42", "blob"⟩).1 rfl

/-! ## Claim C6 -/

/-- C6, evidence of the divergence: on a persisted batch of one
candidate, `SelectScraperResult` with the out-of-range index 1 reaches
the unchecked `searchData[id]` inside the selection-result literal and
panics — the dead `len(searchData) < id` bounds check (wrong comparison,
placed after both the indexing and the selection) never produces the
intended `invalid id` error; with the in-range index 0 it applies the
selection (the five applier writes) and then deletes the batch, as the
claim says; and with no batch the store error is returned. -/
theorem claim_C6_select_result_bug :
    (SelectScraperResultF demoEnv6 MediaType.tvs 9 1).2
        = GoVal.panicked "index out of range" ∧
      (SelectScraperResultF demoEnv6 MediaType.tvs 9 0).2
        = GoVal.ok ⟨"Foo", "prov", "42", "d", 0⟩ ∧
      (SelectScraperResultF demoEnv6 MediaType.tvs 9 0).1
        = Ev.getMultipleResults .tvs 9
            :: uwsrOps 9 ⟨"prov", "42", "d"⟩ ++ [Ev.deleteMultipleResults .tvs 9] ∧
      (SelectScraperResultF demoEnv0 MediaType.tvs 9 0).2
        = GoVal.err "store down" := by
  refine ⟨rfl, rfl, rfl, rfl⟩

/-! ## Claim C3 -/

/-- C3: `Scan` returns an error exactly when one of the three pre-scan
steps fails (library lookup, catalog show-list read, directory
listing); in that case its trace is empty — no per-entry processing has
begun; and the returned value never depends on the per-entry
environment, so once per-entry processing starts `Scan` returns `nil`
no matter how many entries failed (`processItemScan` has no error
return; per-entry errors are only logged). -/
theorem claim_C3_scan_error_boundary (env env' : Env) (senv : ScanEnv)
    (pn : List String) (idlib : Int) (conf : ScraperScanConfig) :
    ((ScanF env senv pn idlib conf).2 = none ↔
      (isOkE senv.GetLibrary = true ∧ isOkE senv.ListShow = true ∧
        isOkE senv.ReadDir = true)) ∧
    ((ScanF env senv pn idlib conf).2 ≠ none →
      (ScanF env senv pn idlib conf).1 = []) ∧
    (ScanF env senv pn idlib conf).2 = (ScanF env' senv pn idlib conf).2 := by
  cases hL : senv.GetLibrary with
  | error e => simp [ScanF, hL, isOkE]
  | ok lib =>
    cases hS : senv.ListShow with
    | error e => simp [ScanF, hL, hS, isOkE]
    | ok tvs =>
      cases hD : senv.ReadDir with
      | error e => simp [ScanF, hL, hS, hD, isOkE]
      | ok items => simp [ScanF, hL, hS, hD, isOkE]

/-- Witness for C3 at a concrete input: a failed library lookup aborts
the scan with an empty trace. -/
theorem claim_C3_scan_error_boundary_witness :
    (ScanF demoEnv0 ⟨Except.error "db down", Except.ok [], Except.ok []⟩
        [] 0 ⟨false, false, false, 1⟩).1 = [] :=
  (claim_C3_scan_error_boundary demoEnv0 demoEnv0
      ⟨Except.error "db down", Except.ok [], Except.ok []⟩ [] 0
      ⟨false, false, false, 1⟩).2.1 (by decide)

/-! ## Claim C4 -/

theorem scanInv_init (N : Nat) (items : List String) :
    ScanInv N items (scanInit N items) := by
  constructor
  · simp [scanInit]
  · simp [scanInit]

theorem scanInv_step {N : Nat} {items : List String} {s t : ScanState}
    (hstep : ScanStep s t) (hinv : ScanInv N items s) : ScanInv N items t := by
  obtain ⟨h1, h2⟩ := hinv
  cases hstep with
  | spawn e rest avail running done =>
      constructor
      · simp only [ScanInv, Multiset.card_cons] at h1 ⊢
        omega
      · rw [← Multiset.cons_coe, Multiset.cons_add, Multiset.cons_add] at h2
        rw [Multiset.add_cons, Multiset.cons_add]
        exact h2
  | finish e pending avail running done hmem =>
      constructor
      · have hcard := Multiset.card_erase_of_mem hmem
        rw [Nat.pred_eq_sub_one] at hcard
        have hpos : 0 < Multiset.card running :=
          Multiset.card_pos_iff_exists_mem.mpr ⟨e, hmem⟩
        simp only at h1 ⊢
        omega
      · rw [← Multiset.cons_erase hmem, Multiset.add_cons, Multiset.cons_add] at h2
        rw [Multiset.add_cons]
        exact h2

theorem scanInv_reach {N : Nat} {items : List String} {s : ScanState}
    (h : Relation.ReflTransGen ScanStep (scanInit N items) s) :
    ScanInv N items s := by
  induction h with
  | refl => exact scanInv_init N items
  | tail _ hstep ih => exact scanInv_step hstep ih

/-- C4: with `MaxConcurrentScans < 2` (i.e. ≤ 1) the scan trace is
exactly the per-entry traces concatenated in directory-listing order —
strictly sequential; and in the concurrent transition system for
`MaxConcurrentScans = N`, every reachable state has at most `N` entries
in flight, and any state from which `Scan` can return (nothing pending,
nothing running) has completed exactly the original entries — each
processed exactly once. -/
theorem claim_C4_concurrency (env : Env) (senv : ScanEnv) (pn : List String)
    (idlib : Int) (conf : ScraperScanConfig) (N : Nat) (entries : List String)
    (s : ScanState) :
    (∀ libPath tvsData items,
      senv.GetLibrary = .ok libPath → senv.ListShow = .ok tvsData →
      senv.ReadDir = .ok items → conf.MaxConcurrentScans < 2 →
      (ScanF env senv pn idlib conf).1
        = (items.map (fun i =>
            processItemScanF env ⟨idlib, libPath, conf.AutoAdd, conf.AddUnknown, pn⟩
              i (tvsData.map (·.Path)) tvsData)).flatten) ∧
    (Relation.ReflTransGen ScanStep (scanInit N entries) s →
      Multiset.card s.running ≤ N ∧
      (s.pending = [] ∧ s.running = 0 → s.done = ↑entries)) := by
  constructor
  · intro libPath tvsData items hL hS hD _
    simp [ScanF, hL, hS, hD]
  · intro hreach
    obtain ⟨h1, h2⟩ := scanInv_reach hreach
    constructor
    · omega
    · rintro ⟨hp, hr⟩
      rw [hp, hr] at h2
      simpa using h2

/-- Witness for C4 at concrete inputs: a one-entry sequential scan
produces that entry's trace; and after the run
spawn `a` / finish `a` with capacity 3, the final state has nobody in
flight and `a` completed exactly once. -/
theorem claim_C4_concurrency_witness :
    ((ScanF demoEnv0 ⟨Except.ok "/lib", Except.ok [], Except.ok [⟨"Dir", true⟩]⟩
          [] 0 ⟨false, false, false, 1⟩).1
        = ([(⟨"Dir", true⟩ : DirEntry)].map (fun i =>
            processItemScanF demoEnv0 ⟨0, "/lib", false, false, []⟩ i [] [])).flatten) ∧
      Multiset.card (("a" ::ₘ (0 : Multiset String)).erase "a") ≤ 3 ∧
      ("a" ::ₘ (0 : Multiset String)) = (↑(["a"] : List String) : Multiset String) := by
  have step1 : ScanStep (scanInit 3 ["a"]) ⟨[], 2, "a" ::ₘ 0, 0⟩ :=
    ScanStep.spawn "a" [] 2 0 0
  have step2 : ScanStep ⟨[], 2, "a" ::ₘ 0, 0⟩
      ⟨[], 3, ("a" ::ₘ 0).erase "a", "a" ::ₘ 0⟩ :=
    ScanStep.finish "a" [] 2 ("a" ::ₘ 0) 0 (by simp)
  have hreach : Relation.ReflTransGen ScanStep (scanInit 3 ["a"])
      ⟨[], 3, ("a" ::ₘ 0).erase "a", "a" ::ₘ 0⟩ :=
    Relation.ReflTransGen.tail (Relation.ReflTransGen.tail
      Relation.ReflTransGen.refl step1) step2
  have hmain := claim_C4_concurrency demoEnv0
    ⟨Except.ok "/lib", Except.ok [], Except.ok [⟨"Dir", true⟩]⟩ [] 0
    ⟨false, false, false, 1⟩ 3 ["a"]
    ⟨[], 3, ("a" ::ₘ 0).erase "a", "a" ::ₘ 0⟩
  refine ⟨hmain.1 "/lib" [] [⟨"Dir", true⟩] rfl rfl rfl (by norm_num), ?_, ?_⟩
  · exact (hmain.2 hreach).1
  · exact (hmain.2 hreach).2 ⟨rfl, by simp⟩

/-! ## Trace lemmas for `addTVS` and `updateTVS` -/

theorem searchAll_go (env : Env) (title : String) :
    ∀ (names : List String) (acc : List Ev × List SearchData),
      (names.foldl (fun acc i =>
        (acc.1 ++ [Ev.searchTVS i title],
         match env.SearchTVS i title with
         | .ok res => acc.2 ++ res
         | .error _ => acc.2)) acc).1
        = acc.1 ++ names.map (fun i => Ev.searchTVS i title)
  | [], acc => by simp
  | n :: ns, acc => by
      rw [List.foldl_cons, searchAll_go env title ns]
      simp

/-- The provider-search loop records exactly one `searchTVS` event per
loaded provider, in priority order. -/
theorem searchAllProviders_trace (env : Env) (cfg : Cfg) (title : String) :
    (searchAllProviders env cfg title).1
      = cfg.ProviderNames.map (fun i => Ev.searchTVS i title) := by
  unfold searchAllProviders
  rw [searchAll_go]
  simp

/-- When every one of the five applier writes succeeds, the applier's
trace is the full ordered write list. -/
theorem uwsr_ok_trace {env : Env} {id : Int} {sel : SelectionResult}
    (h : (UpdateWithSelectionResultF env id sel).2 = none) :
    (UpdateWithSelectionResultF env id sel).1 = uwsrOps id sel := by
  cases h1 : env.dbWrite (Ev.updateShowSel id sel.ScraperName sel.ScraperID sel.ScraperData 1) with
  | some e => exfalso; simp only [UpdateWithSelectionResultF, h1] at h; cases h
  | none =>
  cases h2 : env.dbWrite (Ev.updateShowAllSeasons id " " "0" 1) with
  | some e => exfalso; simp only [UpdateWithSelectionResultF, h1, h2] at h; cases h
  | none =>
  cases h3 : env.dbWrite (Ev.updateShowAllEpisodes id " " "0" 1) with
  | some e => exfalso; simp only [UpdateWithSelectionResultF, h1, h2, h3] at h; cases h
  | none =>
  cases h4 : env.dbWrite (Ev.deleteAllTagLinks .tvs id) with
  | some e => exfalso; simp only [UpdateWithSelectionResultF, h1, h2, h3, h4] at h; cases h
  | none =>
  cases h5 : env.dbWrite (Ev.deleteAllPersonLinks .tvs id) with
  | some e => exfalso; simp only [UpdateWithSelectionResultF, h1, h2, h3, h4, h5] at h; cases h
  | none => simp [UpdateWithSelectionResultF, uwsrOps, h1, h2, h3, h4, h5]

/-- A refresh that fails at the bound provider's detail fetch performs
only the failed `GetTVS` call: no store write at all. -/
theorem updateTVSF_fetch_fail (env : Env) (cfg : Cfg) (d : ListShowRow)
    (e : String) (hPF : providerFound cfg d.ScraperName = true)
    (hFetch : env.GetTVS d.ScraperName d.ScraperID d.ScraperData = .error e) :
    updateTVSF env cfg d
      = ([Ev.getTVS d.ScraperName d.ScraperID d.ScraperData], .error e) := by
  unfold updateTVSF
  rw [hPF]
  simp only [if_true]
  rw [hFetch]

/-- The show's title survives the `data.ID == 0` block. -/
theorem addTVSRow_Title (env : Env) (cfg : Cfg) (data : ListShowRow) :
    (addTVSRow env cfg data).Title = data.Title := by
  unfold addTVSRow
  split
  · cases env.AddShow data.Title cfg.IDLib <;> rfl
  · rfl

/-- `addTVS` always issues the `AddShow` insert (with the row's title)
for a fresh row, as soon as the no-results-and-no-add-unknown guard
does not fire. -/
theorem addTVSF_addShow_mem (env : Env) (cfg : Cfg) (data : ListShowRow)
    (hid : data.ID = 0)
    (h3 : (searchAllProviders env cfg data.Title).2 ≠ [] ∨ cfg.AddUnknown = true) :
    Ev.addShow data.Title cfg.IDLib ∈ (addTVSF env cfg data).1 := by
  have hguard : ((searchAllProviders env cfg data.Title).2.isEmpty
      && !cfg.AddUnknown) = false := by
    cases hE : (searchAllProviders env cfg data.Title).2.isEmpty
    · simp
    · rcases h3 with h | h
      · exact absurd (by simpa using hE) h
      · simp [h]
  have hid' : (data.ID == 0) = true := by simp [hid]
  unfold addTVSF
  rw [hguard]
  simp only [Bool.false_eq_true, if_false]
  rw [hid']
  simp only [if_true]
  cases hA : env.AddShow data.Title cfg.IDLib with
  | error e => simp
  | ok n => simp

/-! ## Claim C8 -/

/-- C8 counterexample: a top-level directory `New.Show` with no matching
catalog path (`util.Index` returns -1) for which every provider search
comes back empty, scanned with add-unknown disabled: `addTVS` returns
`no data avaiable ...` before ever reaching `AddShow`, so the scan
creates no Show row at all — the claim's unconditional
`Unknown → Added` transition does not happen. -/
theorem claim_C8_unknown_to_added_counterexample :
    utilIndex [] "New.Show" = -1 ∧
      (processItemScanF demoEnv0 demoCfg0 ⟨"New.Show", true⟩ [] []).all
          (fun ev => !ev.isAddShow) = true ∧
      (processItemScanF demoEnv0 demoCfg0 ⟨"New.Show", true⟩ [] []).length = 1 := by
  decide

/-- C8 as amended: for every top-level library folder with no matching
catalog path, the scan issues the `AddShow` insert with the folder name
as title, PROVIDED the provider search returned at least one candidate
or the add-unknown option is enabled; otherwise `addTVS` fails first
and no row is created. -/
theorem claim_C8_unknown_to_added (env : Env) (cfg : Cfg) (entry : DirEntry)
    (tvsPaths : List String) (tvsData : List ListShowRow)
    (h1 : entry.isDir = true)
    (h2 : utilIndex tvsPaths entry.name = -1)
    (h3 : (searchAllProviders env cfg entry.name).2 ≠ [] ∨ cfg.AddUnknown = true) :
    Ev.addShow entry.name cfg.IDLib
      ∈ processItemScanF env cfg entry tvsPaths tvsData := by
  have hcore : processItemScanCore env cfg entry tvsPaths tvsData
      = addTVSF env cfg { ListShowRow.zero with Title := entry.name } := by
    unfold processItemScanCore
    rw [h2]
    norm_num
  have hmem : Ev.addShow entry.name cfg.IDLib
      ∈ (addTVSF env cfg { ListShowRow.zero with Title := entry.name }).1 :=
    addTVSF_addShow_mem env cfg { ListShowRow.zero with Title := entry.name }
      rfl h3
  unfold processItemScanF
  rw [h1]
  simp only [if_true]
  rw [hcore]
  cases hres : (addTVSF env cfg { ListShowRow.zero with Title := entry.name }).2 with
  | ok d =>
      dsimp only
      split
      · exact List.mem_append_left _ hmem
      · exact hmem
  | err e => exact hmem
  | panicked m => exact hmem

/-- Witness for the amended C8 at a concrete input: with add-unknown
enabled, a new folder yields the `AddShow` insert titled with the folder
name even though every provider search failed. -/
theorem claim_C8_unknown_to_added_witness :
    Ev.addShow "New.Show" 4 ∈ processItemScanF demoEnv0
      ⟨4, "/lib", false, true, ["prov"]⟩ ⟨"New.Show", true⟩ [] [] :=
  claim_C8_unknown_to_added demoEnv0 ⟨4, "/lib", false, true, ["prov"]⟩
    ⟨"New.Show", true⟩ [] [] rfl (by decide) (Or.inr rfl)

/-! ## Claim C9 -/

/-- C9 counterexample: the claim's "persisted binding remains in place"
fails when the refresh dies only after its own show-metadata write.
With the detail fetch succeeding and the tag listing failing, `addTVS`
returns the refresh error, but the trace of binding-column writes shows
that AFTER the applier's binding write (`prov`/`42`) the refresh issued
a further `UpdateShow` — the shared `UpdateShowParams` query with
zero-valued scraper name/id — overwriting the binding with empty
values: the show ends up unbound, not "bound but not refreshed". -/
theorem claim_C9_bind_before_refresh_counterexample :
    (addTVSF demoEnv9b demoCfg9 demoData9).2 = GoVal.err "tagboom" ∧
      ((addTVSF demoEnv9b demoCfg9 demoData9).1.filter
          (fun ev => ev.isShowBindingWrite))
        = [Ev.updateShowSel 7 "prov" "42" "blob" 1,
           Ev.updateShowMeta 7 "MyShow" "link" "data2" "" "" (-1)] := by
  refine ⟨rfl, rfl⟩

/-- C9 as amended: in the auto-add path of `addTVS` (auto-add on,
`SelectBestItem` returning a candidate, `AddShow` having succeeded if
the row was new), the applier's five writes — the binding first — are
all issued before the refresh begins, after only binding-free
search/insert events (`pre`); and when the refresh fails at the bound
provider's detail fetch — before the refresh's own `UpdateShow` —
`addTVS` returns that error while the refresh has contributed only the
failed `GetTVS` call, which is no store write at all, so the persisted
binding remains in place and the show is left bound but not refreshed.
(When the refresh fails later, its `UpdateShow` — the shared
`UpdateShowParams` query with zero-valued scraper name/id — has already
overwritten the binding: see the counterexample.) -/
theorem claim_C9_bind_before_refresh (env : Env) (cfg : Cfg)
    (data : ListShowRow) (selected : SearchData) (e : String)
    (hAuto : cfg.AutoAdd = true)
    (hAdd : data.ID = 0 → ∃ n, env.AddShow data.Title cfg.IDLib = .ok n)
    (hSel : SelectBestItem env.fz (searchAllProviders env cfg data.Title).2
      data.Title 0 = .ok selected)
    (hUp : (UpdateWithSelectionResultF env (addTVSRow env cfg data).ID
      ⟨selected.ScraperName, selected.ScraperID, selected.ScraperData⟩).2 = none)
    (hPF : providerFound cfg selected.ScraperName = true)
    (hFetch : env.GetTVS selected.ScraperName selected.ScraperID
      selected.ScraperData = .error e) :
    ∃ pre,
      (addTVSF env cfg data).1
        = pre ++ uwsrOps (addTVSRow env cfg data).ID
            ⟨selected.ScraperName, selected.ScraperID, selected.ScraperData⟩
          ++ [Ev.getTVS selected.ScraperName selected.ScraperID
                selected.ScraperData] ∧
      (∀ ev ∈ pre, ev.isShowBindingWrite = false) ∧
      (addTVSF env cfg data).2 = .err e ∧
      (Ev.getTVS selected.ScraperName selected.ScraperID
        selected.ScraperData).isShowBindingWrite = false ∧
      (Ev.getTVS selected.ScraperName selected.ScraperID
        selected.ScraperData).isStoreWrite = false := by
  have hne : (searchAllProviders env cfg data.Title).2 ≠ [] := by
    have hm := (SelectBestItem_ok hSel).1
    unfold filterByYear at hm
    rw [if_neg (by omega)] at hm
    exact List.ne_nil_of_mem hm
  have hguard : ((searchAllProviders env cfg data.Title).2.isEmpty
      && !cfg.AddUnknown) = false := by
    cases hE : (searchAllProviders env cfg data.Title).2.isEmpty
    · simp
    · exact absurd (by simpa using hE) hne
  have hpre : ∀ ev ∈ (searchAllProviders env cfg data.Title).1,
      ev.isShowBindingWrite = false := by
    intro ev hev
    rw [searchAllProviders_trace] at hev
    obtain ⟨i, _, rfl⟩ := List.mem_map.mp hev
    rfl
  cases hid : data.ID == 0 with
  | true =>
      have hid' : data.ID = 0 := by simpa using hid
      obtain ⟨n, hA⟩ := hAdd hid'
      have hrow : addTVSRow env cfg data = { data with ID := n } := by
        unfold addTVSRow
        rw [hid]
        simp only [if_true]
        rw [hA]
      have hRefPair : updateTVSF env cfg (bindSel { data with ID := n } selected)
          = ([Ev.getTVS selected.ScraperName selected.ScraperID
                selected.ScraperData], .error e) :=
        updateTVSF_fetch_fail env cfg (bindSel { data with ID := n } selected)
          e hPF hFetch
      rw [hrow] at hUp
      refine ⟨(searchAllProviders env cfg data.Title).1
        ++ [Ev.addShow data.Title cfg.IDLib], ?_, ?_, ?_, rfl, rfl⟩
      · unfold addTVSF
        rw [hguard]
        simp only [Bool.false_eq_true, if_false]
        rw [hid]
        simp only [if_true]
        rw [hA]
        dsimp only
        unfold addTVSSelect
        rw [hAuto]
        simp only [if_true]
        have hT : ({ data with ID := n } : ListShowRow).Title = data.Title := rfl
        rw [hT, hSel]
        dsimp only
        rw [uwsr_ok_trace hUp, hrow, hRefPair]
        simp [List.append_assoc]
      · intro ev hev
        rcases List.mem_append.mp hev with h | h
        · exact hpre ev h
        · simp only [List.mem_cons, List.not_mem_nil, or_false] at h
          subst h
          rfl
      · unfold addTVSF
        rw [hguard]
        simp only [Bool.false_eq_true, if_false]
        rw [hid]
        simp only [if_true]
        rw [hA]
        dsimp only
        unfold addTVSSelect
        rw [hAuto]
        simp only [if_true]
        have hT : ({ data with ID := n } : ListShowRow).Title = data.Title := rfl
        rw [hT, hSel]
        dsimp only
        rw [hRefPair]
        rfl
  | false =>
      have hrow : addTVSRow env cfg data = data := by
        unfold addTVSRow
        rw [hid]
        simp
      have hRefPair : updateTVSF env cfg (bindSel data selected)
          = ([Ev.getTVS selected.ScraperName selected.ScraperID
                selected.ScraperData], .error e) :=
        updateTVSF_fetch_fail env cfg (bindSel data selected) e hPF hFetch
      rw [hrow] at hUp
      refine ⟨(searchAllProviders env cfg data.Title).1, ?_, hpre, ?_, rfl, rfl⟩
      · unfold addTVSF
        rw [hguard]
        simp only [Bool.false_eq_true, if_false]
        rw [hid]
        simp only [Bool.false_eq_true, if_false]
        unfold addTVSSelect
        rw [hAuto]
        simp only [if_true]
        rw [hSel]
        dsimp only
        rw [uwsr_ok_trace hUp, hrow, hRefPair]
        simp [List.append_assoc]
      · unfold addTVSF
        rw [hguard]
        simp only [Bool.false_eq_true, if_false]
        rw [hid]
        simp only [Bool.false_eq_true, if_false]
        unfold addTVSSelect
        rw [hAuto]
        simp only [if_true]
        rw [hSel]
        dsimp only
        rw [hRefPair]
        rfl

/-- Witness for the amended C9 at a concrete input: an existing show
(id 7) whose auto-selection succeeds, whose applier writes all succeed,
and whose refresh fails at the provider's detail fetch (`boom`) — the
trace after the applier's five writes is the single binding-free
`GetTVS` call and `addTVS` returns `boom`. -/
theorem claim_C9_bind_before_refresh_witness :
    ∃ pre,
      (addTVSF demoEnv9 demoCfg9 demoData9).1
        = pre ++ uwsrOps (addTVSRow demoEnv9 demoCfg9 demoData9).ID
            ⟨"prov", "42", "blob"⟩
          ++ [Ev.getTVS "prov" "42" "blob"] ∧
      (∀ ev ∈ pre, ev.isShowBindingWrite = false) ∧
      (addTVSF demoEnv9 demoCfg9 demoData9).2 = .err "boom" ∧
      (Ev.getTVS "prov" "42" "blob").isShowBindingWrite = false ∧
      (Ev.getTVS "prov" "42" "blob").isStoreWrite = false :=
  claim_C9_bind_before_refresh demoEnv9 demoCfg9 demoData9
    ⟨"MyShow", "prov", "42", "blob", 0⟩ "boom" rfl
    (fun h => absurd h (by decide)) (by decide) rfl (by decide) rfl

end Zog
